import Mathlib

/-!
Verification of the live log stream manager of `k8s-pretty-logger`
(`src/api/kubernetes_client.py`).

Two parts are modelled:

* the log line parser embedded in `log_streaming_thread`
  (lines 194-226 of `kubernetes_client.py`): a pure function from one raw
  log line to `(timestamp?, message)`, wrapped in a `try/except` whose
  fallback is `(none, raw line)`;
* the stream registry and worker lifecycle (`stream_pod_logs`,
  `stop_log_stream` and the worker loop of `log_streaming_thread`),
  modelled as an interleaving small-step system over an explicit state.

Raw lines are `List Char` (Python `str` is a sequence of characters and
the parser only uses length, slicing, `find`, membership and `strip`).
-/

/-! ## Python string primitives -/

/-- Python `str.strip()` whitespace set (ASCII part): space, tab, newline,
carriage return, vertical tab, form feed. -/
def isPySpace (c : Char) : Bool :=
  c == ' ' || c == '\t' || c == '\n' || c == '\r' ||
  c == Char.ofNat 11 || c == Char.ofNat 12

/-- Python `s.strip()`: remove leading and trailing whitespace. -/
def pyStrip (s : List Char) : List Char :=
  ((s.dropWhile isPySpace).reverse.dropWhile isPySpace).reverse

/-- Index of the first occurrence of `sub` in `l` (`some i`), or `none` if
`sub` occurs nowhere; the successful case of Python `l.find(sub)`. -/
def findIdx (sub : List Char) : List Char → Option Nat
  | [] => if sub.isEmpty then some 0 else none
  | c :: cs =>
      if sub.isPrefixOf (c :: cs) then some 0
      else (findIdx sub cs).map (· + 1)

/-- Python `s.find(sub, start)`, returning `some` absolute index instead of
a non-negative integer and `none` instead of `-1`.  (For the one use site,
`log_line.find(" ", 20)`, every hit is at index `≥ 20 > 0`, so the source's
`space_pos > 0` test is exactly the `some`/`none` distinction.) -/
def pyFindFrom (sub s : List Char) (start : Nat) : Option Nat :=
  (findIdx sub (s.drop start)).map (· + start)

/-- The message separator `" : "` of the Spring-Boot log format. -/
def sepStr : List Char := [' ', ':', ' ']

/-- A single space, the needle of `log_line.find(" ", 20)`. -/
def spaceStr : List Char := [' ']

/-! ## The parser, exception-aware

The only operation in the `try` block of lines 197-221 that can raise in
Python is character indexing `log_line[i]` (an `IndexError` when out of
bounds); `len`, slicing, `find`, `in` and `strip` are total.  `parseBodyE`
is the faithful embedding of the `try` block with indexing routed through
the `Except` channel; `parseLine` is the whole parser including the
`except` fallback of lines 222-226. -/

/-- Python character indexing `s[i]`: raises `IndexError` out of bounds. -/
def nthE (s : List Char) (i : Nat) : Except String Char :=
  match s.get? i with
  | some c => .ok c
  | none => .error "IndexError"

/-- The fallback scan loop `for i in range(20, 30)` of lines 217-221:
first index `i` in the given list with `i < len(log_line)` and
`log_line[i]` equal to `'Z'` or `'+'`. -/
def scanLoopE (s : List Char) : List Nat → Except String (Option Nat)
  | [] => .ok none
  | i :: rest =>
      if i < s.length then
        match nthE s i with
        | .ok c => if c = 'Z' ∨ c = '+' then .ok (some i) else scanLoopE s rest
        | .error e => .error e
      else scanLoopE s rest

/-- The `try` block of lines 197-221: timestamp and message extraction. -/
def parseBodyE (s : List Char) : Except String (Option (List Char) × List Char) :=
  if s ≠ [] ∧ 20 < s.length then
    if 'T' ∈ s.take 25 ∧ 'Z' ∈ s.take 30 ∧ (findIdx sepStr s).isSome then
      .ok (match pyFindFrom spaceStr s 20 with
        | some spacePos =>
            match findIdx sepStr s with
            | some colonPos =>
                if 0 < colonPos then
                  (some (s.take spacePos), s.drop (colonPos + 3))
                else
                  (some (s.take spacePos), pyStrip (s.drop spacePos))
            | none => (some (s.take spacePos), pyStrip (s.drop spacePos))
        | none => (none, s))
    else if 'T' ∈ s.take 15 ∧ ('Z' ∈ s.take 30 ∨ '+' ∈ s.take 30) then
      match scanLoopE s (List.range' 20 10) with
      | .ok (some i) => .ok (some (s.take (i + 1)), pyStrip (s.drop (i + 1)))
      | .ok none => .ok (none, s)
      | .error e => .error e
    else .ok (none, s)
  else .ok (none, s)

/-- Lines 194-226 in full: the `try` block with the `except` fallback
`timestamp = None; message = log_line`. -/
def parseLine (s : List Char) : Option (List Char) × List Char :=
  match parseBodyE s with
  | .ok r => r
  | .error _ => (none, s)

/-- `log_line[i]` holds `'Z'` or `'+'` (in particular `i` is in bounds);
the per-index test of the fallback scan. -/
def isZPlus (s : List Char) (i : Nat) : Bool :=
  match s.get? i with
  | some c => decide (c = 'Z' ∨ c = '+')
  | none => false

/-- Exception-free rendering of the parser, proved equal to `parseLine`. -/
def parseCore (s : List Char) : Option (List Char) × List Char :=
  if s ≠ [] ∧ 20 < s.length then
    if 'T' ∈ s.take 25 ∧ 'Z' ∈ s.take 30 ∧ (findIdx sepStr s).isSome then
      match pyFindFrom spaceStr s 20 with
      | some spacePos =>
          match findIdx sepStr s with
          | some colonPos =>
              if 0 < colonPos then
                (some (s.take spacePos), s.drop (colonPos + 3))
              else
                (some (s.take spacePos), pyStrip (s.drop spacePos))
          | none => (some (s.take spacePos), pyStrip (s.drop spacePos))
      | none => (none, s)
    else if 'T' ∈ s.take 15 ∧ ('Z' ∈ s.take 30 ∨ '+' ∈ s.take 30) then
      match (List.range' 20 10).find? (isZPlus s) with
      | some i => (some (s.take (i + 1)), pyStrip (s.drop (i + 1)))
      | none => (none, s)
    else (none, s)
  else (none, s)

/-! ## Parser lemmas -/

/-- The scan loop never raises: its bound check guards the indexing. -/
lemma scanLoopE_ok (s : List Char) :
    ∀ l : List Nat, scanLoopE s l = .ok (l.find? (isZPlus s)) := by
  intro l
  induction l with
  | nil => rfl
  | cons i rest ih =>
      simp only [scanLoopE]
      by_cases hi : i < s.length
      · rw [if_pos hi]
        cases hc : s.get? i with
        | none => exact absurd (List.get?_eq_none.mp hc) (Nat.not_le.mpr hi)
        | some c =>
            have hz : isZPlus s i = decide (c = 'Z' ∨ c = '+') := by
              simp only [isZPlus, hc]
            simp only [nthE, hc]
            by_cases hzc : c = 'Z' ∨ c = '+'
            · rw [if_pos hzc,
                List.find?_cons_of_pos _ (hz.trans (decide_eq_true_eq.mpr hzc))]
            · rw [if_neg hzc, ih,
                List.find?_cons_of_neg _ (by rw [hz]; simpa using hzc)]
      · rw [if_neg hi, ih,
          List.find?_cons_of_neg _
            (by rw [isZPlus, List.get?_eq_none.mpr (Nat.le_of_not_lt hi)]; simp)]

/-- The `try` block never raises an exception. -/
lemma parseBodyE_eq (s : List Char) : parseBodyE s = .ok (parseCore s) := by
  unfold parseBodyE parseCore
  split
  · split
    · rfl
    · split
      · rw [scanLoopE_ok]
        cases (List.range' 20 10).find? (isZPlus s) <;> rfl
      · rfl
  · rfl

/-- The parser equals its exception-free rendering. -/
lemma parseLine_eq_core (s : List Char) : parseLine s = parseCore s := by
  unfold parseLine
  rw [parseBodyE_eq]

/-- Single-character `find` misses exactly when the character is absent. -/
lemma findIdx_single_none (c : Char) (l : List Char) :
    findIdx [c] l = none ↔ c ∉ l := by
  induction l with
  | nil => simp [findIdx]
  | cons x xs ih =>
      by_cases hcx : c = x
      · subst hcx
        simp [findIdx, List.isPrefixOf]
      · simp [findIdx, List.isPrefixOf, hcx, ih, Option.map_eq_none']

/-- `find?` over `range' a n` returns the least index satisfying `p` when
one exists in the window. -/
lemma find?_range'_eq_some (p : Nat → Bool) :
    ∀ n a i0 : Nat, a ≤ i0 → i0 < a + n → p i0 = true →
      (∀ j, a ≤ j → j < i0 → p j = false) →
      (List.range' a n).find? p = some i0 := by
  intro n
  induction n with
  | zero =>
      intro a i0 h1 h2 _ _
      omega
  | succ n ih =>
      intro a i0 h1 h2 hp hmin
      rw [List.range'_succ]
      by_cases ha : a = i0
      · subst ha
        rw [List.find?_cons_of_pos _ hp]
      · have ha' : a < i0 := lt_of_le_of_ne h1 ha
        rw [List.find?_cons_of_neg _ (by rw [hmin a le_rfl ha']; simp)]
        exact ih (a + 1) i0 ha' (by omega) hp fun j hj1 hj2 => hmin j (by omega) hj2

/-- Reduction of the parser on the Spring-Boot branch (step 2 of the
heuristic): marker test passed and a space found at or after offset 20. -/
lemma parseCore_step2 (s : List Char) (c p : Nat)
    (hlen : 20 < s.length)
    (hT : 'T' ∈ s.take 25) (hZ : 'Z' ∈ s.take 30)
    (hc : findIdx sepStr s = some c)
    (hp : pyFindFrom spaceStr s 20 = some p) :
    parseCore s =
      if 0 < c then (some (s.take p), s.drop (c + 3))
      else (some (s.take p), pyStrip (s.drop p)) := by
  have hne : s ≠ [] := List.length_pos.mp (by omega)
  unfold parseCore
  rw [if_pos ⟨hne, hlen⟩, if_pos ⟨hT, hZ, by rw [hc]; rfl⟩, hp, hc]

/-- Reduction of the parser on the fallback branch (step 3): marker test
failed, ISO-like prefix present. -/
lemma parseCore_fallback (s : List Char)
    (hlen : 20 < s.length)
    (hm : ¬('T' ∈ s.take 25 ∧ 'Z' ∈ s.take 30 ∧ (findIdx sepStr s).isSome))
    (hT : 'T' ∈ s.take 15) (hZ : 'Z' ∈ s.take 30 ∨ '+' ∈ s.take 30) :
    parseCore s =
      match (List.range' 20 10).find? (isZPlus s) with
      | some i => (some (s.take (i + 1)), pyStrip (s.drop (i + 1)))
      | none => (none, s) := by
  have hne : s ≠ [] := List.length_pos.mp (by omega)
  unfold parseCore
  rw [if_pos ⟨hne, hlen⟩, if_neg hm, if_pos ⟨hT, hZ⟩]

/-! ## Parser claims -/

/-- C4: for every text input line, including the empty string, `parse`
never raises or propagates an exception: the exception-aware evaluation of
the `try` block (`parseBodyE`, in which Python character indexing may
raise) always returns `ok`, so the `except` fallback of `parseLine`
(timestamp `none`, message the whole raw line) is never reached by an
internal parsing error, and `parseLine` is total. -/
theorem c4_parse_never_raises (s : List Char) :
    parseBodyE s = .ok (parseLine s) := by
  rw [parseBodyE_eq, parseLine_eq_core]

/-- The input line of claim C5. -/
def c5line : List Char :=
  "2025-05-14T17:19:26.938Z INFO 1 --- [svc] [Thread-1] c.v.t.Service : Hello".data

/-- The timestamp that claim C5 says `parse` yields on `c5line`: the whole
prefix ending before the `" : "` separator. -/
def c5claimedTs : List Char :=
  "2025-05-14T17:19:26.938Z INFO 1 --- [svc] [Thread-1] c.v.t.Service".data

/-- C5 counterexample: on the claimed input the parser's timestamp is
`"2025-05-14T17:19:26.938Z"` (ending at the first space at or after
offset 20), not the long prefix ending before the `" : "` separator that
the claim states. -/
theorem c5_timestamp_counterexample :
    (parseLine c5line).1 = some "2025-05-14T17:19:26.938Z".data ∧
    some "2025-05-14T17:19:26.938Z".data ≠ some c5claimedTs := by
  exact ⟨by decide, by decide⟩

/-- C5 amended: on the claimed input, `parse` yields timestamp
`"2025-05-14T17:19:26.938Z"` (the prefix up to the first space at or after
offset 20) and message `"Hello"` (after the `" : "` separator). -/
theorem c5_parse_example_actual :
    parseLine c5line = (some "2025-05-14T17:19:26.938Z".data, "Hello".data) := by
  decide

/-- A line hitting the step-2 branch whose first `" : "` occurrence is at
offset 0. -/
def c6line : List Char := " : TxxxxxxxxxxxxxxxxZ yyy".data

/-- C6 counterexample: `c6line` enters the step-2 branch (length over 20,
`T` in the first 25, `Z` in the first 30, separator present, space at or
after offset 20) and its first `" : "` occurrence is at offset 0, yet the
message is not the substring after the separator. -/
theorem c6_separator_at_zero_counterexample :
    20 < c6line.length ∧ 'T' ∈ c6line.take 25 ∧ 'Z' ∈ c6line.take 30 ∧
    findIdx sepStr c6line = some 0 ∧ ' ' ∈ c6line.drop 20 ∧
    (parseLine c6line).2 ≠ c6line.drop (0 + 3) := by
  decide

/-- C6 amended: on the step-2 branch (with a space at or after offset 20),
the message is the substring after the first `" : "` occurrence only when
that occurrence is at a positive offset (the source tests
`colon_pos > 0`); when the first occurrence is at offset 0, the message is
instead the substring after the timestamp-ending space, trimmed.  In both
cases the timestamp is the prefix up to the first space at or after
offset 20. -/
theorem c6_message_after_separator (s : List Char) (c : Nat)
    (hlen : 20 < s.length)
    (hT : 'T' ∈ s.take 25) (hZ : 'Z' ∈ s.take 30)
    (hc : findIdx sepStr s = some c)
    (hsp : ' ' ∈ s.drop 20) :
    (0 < c → ∃ p, pyFindFrom spaceStr s 20 = some p ∧
        parseLine s = (some (s.take p), s.drop (c + 3))) ∧
    (c = 0 → ∃ p, pyFindFrom spaceStr s 20 = some p ∧
        parseLine s = (some (s.take p), pyStrip (s.drop p))) := by
  obtain ⟨q, hq⟩ : ∃ q, findIdx spaceStr (s.drop 20) = some q := by
    cases h : findIdx spaceStr (s.drop 20) with
    | none =>
        exact absurd ((findIdx_single_none ' ' (s.drop 20)).mp h) (by simpa using hsp)
    | some q => exact ⟨q, rfl⟩
  have hpf : pyFindFrom spaceStr s 20 = some (q + 20) := by
    rw [pyFindFrom, hq]; rfl
  have hred := parseCore_step2 s c (q + 20) hlen hT hZ hc hpf
  constructor
  · intro h0
    refine ⟨q + 20, hpf, ?_⟩
    rw [parseLine_eq_core, hred, if_pos h0]
  · intro h0
    refine ⟨q + 20, hpf, ?_⟩
    rw [parseLine_eq_core, hred, if_neg (by omega)]

/-- C6 witness: the two amended cases evaluated on concrete lines
(`c5line` with its separator at offset 66; `c6line` with its separator at
offset 0). -/
theorem c6_message_after_separator_witness :
    (∃ p, pyFindFrom spaceStr c5line 20 = some p ∧
        parseLine c5line = (some (c5line.take p), c5line.drop (66 + 3))) ∧
    (∃ p, pyFindFrom spaceStr c6line 20 = some p ∧
        parseLine c6line = (some (c6line.take p), pyStrip (c6line.drop p))) :=
  ⟨(c6_message_after_separator c5line 66 (by decide) (by decide) (by decide)
      (by decide) (by decide)).1 (by decide),
   (c6_message_after_separator c6line 0 (by decide) (by decide) (by decide)
      (by decide) (by decide)).2 rfl⟩

/-- C7: on the fallback branch (line longer than 20 characters, step-2
marker test failed, `T` in the first 15 characters, `Z` or `+` in the
first 30), the parser scans offsets 20..29 inclusive: if the first offset
`i0` in that window holding `Z` or `+` (within bounds) exists, the
timestamp is the substring through `i0` inclusive and the message is the
substring after `i0`, trimmed; if no such offset exists, the timestamp is
`none` and the message is the raw line unchanged. -/
theorem c7_fallback_scan (s : List Char) (i0 : Nat)
    (hlen : 20 < s.length)
    (hm : ¬('T' ∈ s.take 25 ∧ 'Z' ∈ s.take 30 ∧ (findIdx sepStr s).isSome))
    (hT : 'T' ∈ s.take 15) (hZ : 'Z' ∈ s.take 30 ∨ '+' ∈ s.take 30) :
    (20 ≤ i0 → i0 < 30 → isZPlus s i0 = true →
      (∀ j, j < i0 → 20 ≤ j → isZPlus s j = false) →
      parseLine s = (some (s.take (i0 + 1)), pyStrip (s.drop (i0 + 1)))) ∧
    ((∀ j, j < 30 → 20 ≤ j → isZPlus s j = false) →
      parseLine s = (none, s)) := by
  have hred := parseCore_fallback s hlen hm hT hZ
  constructor
  · intro h1 h2 hp hmin
    have hfind : (List.range' 20 10).find? (isZPlus s) = some i0 :=
      find?_range'_eq_some (isZPlus s) 10 20 i0 h1 (by omega) hp
        fun j hj1 hj2 => hmin j hj2 hj1
    rw [parseLine_eq_core, hred, hfind]
  · intro hall
    have hfind : (List.range' 20 10).find? (isZPlus s) = none := by
      rw [List.find?_eq_none]
      intro x hx
      rw [List.mem_range'_1] at hx
      simp [hall x (by omega) hx.1]
    rw [parseLine_eq_core, hred, hfind]

/-- A fallback-branch line with `Z` at offset 22. -/
def c7lineA : List Char := "2025-05-14T17:19:26.93Z rest".data

/-- A fallback-branch line whose only `Z` is at offset 19, outside the
20..29 scan window. -/
def c7lineB : List Char := "2025-05-14T17:19:26Z hello wor".data

/-- C7 witness: the found case at offset 22 and the not-found case,
evaluated on concrete lines. -/
theorem c7_fallback_scan_witness :
    parseLine c7lineA = (some (c7lineA.take (22 + 1)), pyStrip (c7lineA.drop (22 + 1))) ∧
    parseLine c7lineB = (none, c7lineB) :=
  ⟨(c7_fallback_scan c7lineA 22 (by decide) (by decide) (by decide) (by decide)).1
      (by decide) (by decide) (by decide) (by decide),
   (c7_fallback_scan c7lineB 0 (by decide) (by decide) (by decide) (by decide)).2
      (by decide)⟩

/-- C10: a line longer than 20 characters that passes the step-2 marker
test but has no space character at any offset at or after 20 falls through
with timestamp `none` and the raw line as message, although the `" : "`
separator is present (the source's `space_pos > 0` test fails because
`find(" ", 20)` returns `-1`). -/
theorem c10_marker_without_late_space (s : List Char)
    (hlen : 20 < s.length)
    (hT : 'T' ∈ s.take 25) (hZ : 'Z' ∈ s.take 30)
    (hsep : (findIdx sepStr s).isSome)
    (hsp : ' ' ∉ s.drop 20) :
    parseLine s = (none, s) := by
  have hne : s ≠ [] := List.length_pos.mp (by omega)
  have hpf : pyFindFrom spaceStr s 20 = none := by
    rw [pyFindFrom]
    rw [show spaceStr = [' '] from rfl, (findIdx_single_none ' ' (s.drop 20)).mpr hsp]
    rfl
  rw [parseLine_eq_core]
  unfold parseCore
  rw [if_pos ⟨hne, hlen⟩, if_pos ⟨hT, hZ, hsep⟩, hpf]

/-- A line passing the step-2 marker test with no space at offset 20 or
later. -/
def c10line : List Char := "T : Zaaaaaaaaaaaaaaaaaaaaaaa".data

/-- C10 witness: the fall-through evaluated on a concrete line. -/
theorem c10_marker_without_late_space_witness :
    parseLine c10line = (none, c10line) :=
  c10_marker_without_late_space c10line (by decide) (by decide) (by decide)
    (by decide) (by decide)

/-! ## Stream registry and worker lifecycle

`stream_pod_logs` (lines 156-259), `stop_log_stream` (lines 261-268) and
the worker loop of `log_streaming_thread` (lines 162-252) are modelled as
an interleaving small-step system.  The registry `active_streams` is the
dictionary `pod name → thread`, rendered as an association list from pod
name to a numeric worker (thread) identity.  A worker owns its log source
— the lazy line sequence produced by the watch, rendered as the list of
lines it will yield followed by an optional terminal source error — and a
program counter splitting one loop iteration at its only internally
observable point: between the liveness check `pod_name not in
self.active_streams` and the `socketio.emit` of the parsed record.  Sink
emissions are recorded in order; each event carries the identity of the
emitting worker as ghost data (the real payload has no such field — it
only attributes emissions for cross-worker ordering statements). -/

/-- Worker program counter.  `ready`: at the top of the loop, about to
pull the next line (or observe end/error of the source).  `emitting l`:
pulled line `l` and passed the liveness check, about to emit.  `done`:
the thread function returned. -/
inductive WPC where
  | ready
  | emitting (line : List Char)
  | done
deriving DecidableEq

/-- One worker thread running `log_streaming_thread`. -/
structure Worker where
  wid : Nat
  pod : String
  ns : String
  container : Option String
  pending : List (List Char)
  errMsg : Option (List Char)
  pc : WPC
deriving DecidableEq

/-- A sink emission: `socketio.emit('log_update', …)` with the parsed
record, or `socketio.emit('error', …)` with the underlying message.  The
`wid` field is ghost attribution data, not part of the real payload. -/
inductive Event where
  | logUpdate (wid : Nat) (pod ns : String) (container : Option String)
      (msg : List Char) (ts : Option (List Char))
  | errorEvent (wid : Nat) (msg : List Char)
deriving DecidableEq

/-- Global state: the `active_streams` dictionary, the worker threads,
the sink trace, and a fresh-identity counter for spawned threads. -/
structure SysState where
  activeStreams : List (String × Nat)
  workers : List Worker
  events : List Event
  nextId : Nat
deriving DecidableEq

/-- Dictionary assignment `d[k] = v` on an association list. -/
def dictSet (k : String) (v : Nat) (l : List (String × Nat)) : List (String × Nat) :=
  (k, v) :: l.filter (fun kv => kv.1 != k)

/-- Dictionary deletion `del d[k]`. -/
def dictDel (k : String) (l : List (String × Nat)) : List (String × Nat) :=
  l.filter (fun kv => kv.1 != k)

/-- `stop_log_stream` (lines 261-268): if the pod has an entry in
`active_streams`, delete it and return `True`; otherwise return `False`.
Nothing else happens: no cancellation signal is set and the worker thread
is not joined. -/
def stopLogStream (podName : String) (s : SysState) : Bool × SysState :=
  if (List.lookup podName s.activeStreams).isSome then
    (true, { s with activeStreams := dictDel podName s.activeStreams })
  else
    (false, s)

/-- `stream_pod_logs` (lines 156-259): if the pod already has an entry,
call `stop_log_stream` on it; then create the worker thread, register it
under the pod name, and start it.  The call performs no join: it returns
as soon as the new thread is registered and started. -/
def streamPodLogs (ns podName : String) (container : Option String)
    (lines : List (List Char)) (errMsg : Option (List Char))
    (s : SysState) : SysState :=
  let s1 := if (List.lookup podName s.activeStreams).isSome then
              (stopLogStream podName s).2
            else s
  let nid := s1.nextId
  { s1 with
      activeStreams := dictSet podName nid s1.activeStreams,
      workers := s1.workers ++
        [{ wid := nid, pod := podName, ns := ns, container := container,
           pending := lines, errMsg := errMsg, pc := .ready }],
      nextId := nid + 1 }

/-- One small step of `log_streaming_thread` for worker `w` (lines
170-252), returning the stepped worker plus the updated registry and sink
trace.

* At `ready` with a line available: the watch yields the line; the worker
  runs the liveness check `if pod_name not in self.active_streams` (line
  179).  If the pod is absent it stops the watch and breaks — reaching the
  end of the function with no deregistration; if present (whoever's handle
  that is) it parses and moves on to emit.
* At `emitting`: `socketio.emit('log_update', …)` of the parsed record.
* At `ready` with the source exhausted and no error: the loop ends and the
  function returns — with no deregistration (lines 242-246 only log).
* At `ready` with the source exhausted by an unrecoverable error: the
  `except` block (lines 247-252) emits one `error` event and deletes the
  pod's registry entry if the pod name is present — whichever handle is
  registered under it. -/
def stepWorker (s : SysState) (w : Worker) :
    Worker × List (String × Nat) × List Event :=
  match w.pc with
  | .emitting line =>
      ({ w with pc := .ready }, s.activeStreams,
        s.events ++ [.logUpdate w.wid w.pod w.ns w.container
          (parseLine line).2 (parseLine line).1])
  | .ready =>
      match w.pending with
      | line :: rest =>
          if (List.lookup w.pod s.activeStreams).isSome then
            ({ w with pending := rest, pc := .emitting line },
              s.activeStreams, s.events)
          else
            ({ w with pc := .done }, s.activeStreams, s.events)
      | [] =>
          match w.errMsg with
          | none => ({ w with pc := .done }, s.activeStreams, s.events)
          | some m =>
              ({ w with pc := .done },
                if (List.lookup w.pod s.activeStreams).isSome then
                  dictDel w.pod s.activeStreams
                else s.activeStreams,
                s.events ++ [.errorEvent w.wid m])
  | .done => (w, s.activeStreams, s.events)

/-- Run one small step of the worker with identity `wid` (no-op if no
such worker exists). -/
def workerStep (wid : Nat) (s : SysState) : SysState :=
  match s.workers.find? (fun u => u.wid == wid) with
  | none => s
  | some w =>
      let r := stepWorker s w
      { s with
          workers := s.workers.map (fun u => if u.wid == wid then r.1 else u),
          activeStreams := r.2.1,
          events := r.2.2 }

/-- An interleaving action: a caller invoking `stream_pod_logs`, a caller
invoking `stop_log_stream` (discarding the result), or one small step of
a worker thread. -/
inductive Act where
  | start (ns podName : String) (container : Option String)
      (lines : List (List Char)) (errMsg : Option (List Char))
  | stop (podName : String)
  | work (wid : Nat)

/-- Execute one action. -/
def runAction (a : Act) (s : SysState) : SysState :=
  match a with
  | .start ns podName container lines errMsg =>
      streamPodLogs ns podName container lines errMsg s
  | .stop podName => (stopLogStream podName s).2
  | .work wid => workerStep wid s

/-- Execute a sequence of interleaved actions. -/
def run (as : List Act) (s : SysState) : SysState :=
  as.foldl (fun t a => runAction a t) s

/-- The initial state: empty registry, no workers, empty sink trace. -/
def initState : SysState := ⟨[], [], [], 0⟩

/-! ## Registry lemmas -/

/-- After `del d[k]`, `k` is no longer bound. -/
lemma lookup_dictDel (podName : String) (l : List (String × Nat)) :
    List.lookup podName (dictDel podName l) = none := by
  induction l with
  | nil => rfl
  | cons kv rest ih =>
      obtain ⟨k, v⟩ := kv
      by_cases h : k = podName
      · subst h
        simpa [dictDel, List.filter_cons] using ih
      · have hb : (k != podName) = true := by simpa using h
        have hb' : (podName == k) = false := by
          simpa using fun e => h e.symm
        simpa [dictDel, List.filter_cons, hb, List.lookup_cons, hb'] using ih

/-- `del d[k]` on a dictionary not binding `k` is the identity. -/
lemma dictDel_of_lookup_none (podName : String) (l : List (String × Nat))
    (h : List.lookup podName l = none) : dictDel podName l = l := by
  induction l with
  | nil => rfl
  | cons kv rest ih =>
      obtain ⟨k, v⟩ := kv
      by_cases hk : podName = k
      · subst hk
        simp [List.lookup_cons] at h
      · have hb : (podName == k) = false := by simpa using hk
        rw [List.lookup_cons] at h
        simp only [hb] at h
        have hb2 : ((k, v).1 != podName) = true := by
          simpa using fun e => hk e.symm
        unfold dictDel at ih ⊢
        rw [List.filter_cons, if_pos hb2, ih h]

/-! ## Lifecycle claims -/

/-- The trace refuting claim C1: start a stream for pod `"p"` (worker 0,
two lines pending), let worker 0 pass its liveness check, then call
`stream_pod_logs` for the same pod again (worker 1).  The restart's
internal `stop_log_stream` only deletes the registry entry and the new
registration immediately re-creates the key, so worker 0's subsequent
liveness checks succeed against worker 1's handle and worker 0 keeps
emitting. -/
def c1trace : List Act :=
  [.start "n" "p" none [['a'], ['b']] none,
   .work 0,
   .start "n" "p" none [['c']] none,
   .work 1, .work 1, .work 0, .work 0, .work 0]

/-- C1 is violated by the code: after the restart installed worker 1,
records of the superseded worker 0 are delivered to the sink after worker
1 started and after worker 1's own first record — the stop sequence
performed by `stream_pod_logs` neither waits for the old worker nor
prevents it from emitting ever after (its liveness check is key-based and
the key was immediately re-registered). -/
theorem c1_superseded_worker_interleaves :
    (run c1trace initState).activeStreams = [("p", 1)] ∧
    (run c1trace initState).events =
      [.logUpdate 1 "p" "n" none ['c'] none,
       .logUpdate 0 "p" "n" none ['a'] none,
       .logUpdate 0 "p" "n" none ['b'] none] := by
  decide

/-- A reachable state for the C2 refutation: worker 0 for pod `"p"` is
registered and has passed its liveness check for line `'a'`, i.e. it sits
between the check and the emit. -/
def c2state : SysState :=
  run [.start "n" "p" none [['a']] none, .work 0] initState

/-- C2 is violated by the code: `stop_log_stream("p")` returns `True`
having only deleted the registry entry; at that point the worker thread
for `"p"` has not terminated (it is mid-iteration), and its very next
step still delivers a record to the sink after the stop returned. -/
theorem c2_stop_returns_before_worker_exit :
    (stopLogStream "p" c2state).1 = true ∧
    (∃ w ∈ (stopLogStream "p" c2state).2.workers, w.wid = 0 ∧ w.pc ≠ WPC.done) ∧
    (workerStep 0 (stopLogStream "p" c2state).2).events =
      [.logUpdate 0 "p" "n" none ['a'] none] := by
  decide

/-- The trace refuting claim C3: worker 0 (source: one line then a fatal
error) emits its line, is superseded by worker 1, and then hits the
unrecoverable error.  Its `except` block deletes the registry entry for
the pod name — which is now worker 1's handle. -/
def c3trace : List Act :=
  [.start "n" "p" none [['a']] (some "boom".data),
   .work 0, .work 0,
   .start "n" "p" none [['b']] none,
   .work 0]

/-- C3 counterexample: a worker whose handle was already replaced does
remove the replacement's handle — after `c3trace`, the registry entry
installed for worker 1 has been deleted by the superseded worker 0's
error path, while worker 1 is still running. -/
theorem c3_replaced_worker_deletes_replacement :
    (run c3trace initState).activeStreams = [] ∧
    (∃ w ∈ (run c3trace initState).workers, w.wid = 1 ∧ w.pc ≠ WPC.done) := by
  decide

/-- C3 amended: when a worker's source terminates, deregistration happens
only on the unrecoverable-error path, and it is guarded by pod-name
membership, not by handle identity: on error the worker deletes whatever
entry is registered under its pod name (deleting an absent key is the
identity), and on normal source exhaustion it deregisters nothing, even
when it is still the currently-registered handle. -/
theorem c3_deregistration_actual (s : SysState) (w : Worker) (wid : Nat)
    (hw : s.workers.find? (fun u => u.wid == wid) = some w)
    (hpc : w.pc = WPC.ready) (hpend : w.pending = []) :
    (w.errMsg = none → (workerStep wid s).activeStreams = s.activeStreams) ∧
    (∀ m, w.errMsg = some m →
      (workerStep wid s).activeStreams = dictDel w.pod s.activeStreams ∧
      (workerStep wid s).events = s.events ++ [.errorEvent wid m]) := by
  have hwid : w.wid = wid := by
    have h := List.find?_some hw
    simpa using h
  constructor
  · intro he
    simp only [workerStep, hw, stepWorker, hpc, hpend, he]
  · intro m he
    refine ⟨?_, ?_⟩
    · simp only [workerStep, hw, stepWorker, hpc, hpend, he]
      by_cases hk : (List.lookup w.pod s.activeStreams).isSome
      · rw [if_pos hk]
      · rw [if_neg hk,
          dictDel_of_lookup_none w.pod s.activeStreams
            (Option.not_isSome_iff_eq_none.mp hk)]
    · simp only [workerStep, hw, stepWorker, hpc, hpend, he, hwid]

/-- A worker at the end of an exhausted source with no error, still
registered. -/
def c3workerA : Worker := ⟨0, "p", "n", none, [], none, .ready⟩

/-- Registry and thread state around `c3workerA`. -/
def c3stateA : SysState := ⟨[("p", 0)], [c3workerA], [], 1⟩

/-- A worker at the end of an exhausted source with a fatal error, still
registered. -/
def c3workerB : Worker := ⟨0, "p", "n", none, [], some "boom".data, .ready⟩

/-- Registry and thread state around `c3workerB`. -/
def c3stateB : SysState := ⟨[("p", 0)], [c3workerB], [], 1⟩

/-- C3 amended witness: normal source end deregisters nothing although the
worker is still registered; the error path deletes the pod's entry and
emits the error event. -/
theorem c3_deregistration_actual_witness :
    (workerStep 0 c3stateA).activeStreams = c3stateA.activeStreams ∧
    ((workerStep 0 c3stateB).activeStreams = dictDel "p" c3stateB.activeStreams ∧
      (workerStep 0 c3stateB).events = [] ++ [.errorEvent 0 "boom".data]) :=
  ⟨(c3_deregistration_actual c3stateA c3workerA 0 (by decide) (by decide)
      (by decide)).1 (by decide),
   (c3_deregistration_actual c3stateB c3workerB 0 (by decide) (by decide)
      (by decide)).2 "boom".data (by decide)⟩

/-- The run of claim C8: a fresh stream whose source yields three lines
and then raises a fatal error, with the worker running uninterfered to
termination (pull/check and emit for each line, then the error step). -/
def c8trace (ns podName : String) (container : Option String)
    (l1 l2 l3 m : List Char) : List Act :=
  [.start ns podName container [l1, l2, l3] (some m),
   .work 0, .work 0, .work 0, .work 0, .work 0, .work 0, .work 0]

/-- C8: when the source for a freshly started stream yields exactly three
lines and then raises an unrecoverable error, the sink receives exactly
the three `log_update` events in source order followed by exactly one
`error` event carrying the underlying message, and afterwards the pod is
no longer registered. -/
theorem c8_three_lines_then_error (ns podName : String) (container : Option String)
    (l1 l2 l3 m : List Char) :
    (run (c8trace ns podName container l1 l2 l3 m) initState).events =
      [.logUpdate 0 podName ns container (parseLine l1).2 (parseLine l1).1,
       .logUpdate 0 podName ns container (parseLine l2).2 (parseLine l2).1,
       .logUpdate 0 podName ns container (parseLine l3).2 (parseLine l3).1,
       .errorEvent 0 m] ∧
    List.lookup podName
      (run (c8trace ns podName container l1 l2 l3 m) initState).activeStreams =
      none := by
  simp [c8trace, run, runAction, streamPodLogs, stopLogStream, workerStep, stepWorker,
        initState, dictSet, dictDel, List.lookup, List.find?, List.filter]

/-- C9: stopping a pod with no registered handle returns `False` and
leaves the whole state unchanged; and immediately after a stop that
returned `True` (and removed the handle), a second stop on the same pod
returns `False` and changes nothing. -/
theorem c9_stop_idempotent (podName : String) (s : SysState) :
    (List.lookup podName s.activeStreams = none →
      stopLogStream podName s = (false, s)) ∧
    ((stopLogStream podName s).1 = true →
      stopLogStream podName (stopLogStream podName s).2 =
        (false, (stopLogStream podName s).2)) := by
  constructor
  · intro h
    rw [stopLogStream, if_neg (by rw [h]; simp)]
  · intro h
    have hsome : (List.lookup podName s.activeStreams).isSome = true := by
      by_contra hn
      rw [stopLogStream, if_neg hn] at h
      simp at h
    have ht : (stopLogStream podName s).2 =
        { s with activeStreams := dictDel podName s.activeStreams } := by
      rw [stopLogStream, if_pos hsome]
    rw [ht, stopLogStream, if_neg (by rw [lookup_dictDel]; simp)]

/-- A registry binding only pod `"q"`. -/
def c9state : SysState := ⟨[("q", 0)], [], [], 1⟩

/-- C9 witness: stop of the unregistered pod `"p"` is a pure no-op; a
repeated stop of `"q"` right after the successful one returns `False` and
changes nothing. -/
theorem c9_stop_idempotent_witness :
    stopLogStream "p" c9state = (false, c9state) ∧
    stopLogStream "q" ((stopLogStream "q" c9state).2) =
      (false, (stopLogStream "q" c9state).2) :=
  ⟨(c9_stop_idempotent "p" c9state).1 (by decide),
   (c9_stop_idempotent "q" c9state).2 (by decide)⟩
